import Mathlib

/-!
Shallow embedding of `src/app.py` (Ai-Smart-Detector), the parts reachable
from the verified claims: the weapon-severity table, the weapon classifier
`detect_weapons`, the threat aggregator `analyze_threat_level`, the model
loader `load_models`, incident submission and the session incident store
from `main`, the incident-history filters, JSON export, and incident-id
generation.  Python floats (scores, coordinates) are modelled as rationals;
machine side effects (`st.error`, `st.success`) are modelled as returned
message lists where a claim mentions them.
-/

namespace AiSmartDetector

/-- Bounding box of a raw model detection (`result['box']` with keys
`xmin`, `ymin`, `xmax`, `ymax`). -/
structure Box where
  xmin : ℚ
  ymin : ℚ
  xmax : ℚ
  ymax : ℚ
deriving DecidableEq

/-- One raw output item of the object-detection pipeline:
`{'label': ..., 'score': ..., 'box': ...}`. -/
structure RawResult where
  label : String
  score : ℚ
  box : Box
deriving DecidableEq

/-- One entry of the `WEAPON_SEVERITY` table in `app.py`. -/
structure SeverityEntry where
  severity : String
  alert_level : String
  risk : String
deriving DecidableEq

/-- A classified detection as built by `detect_weapons` (the dict with keys
`weapon`, `confidence`, `box`, `severity`, `alert_level`, `risk`). -/
structure Detection where
  weapon : String
  confidence : ℚ
  box : Box
  severity : String
  alert_level : String
  risk : String
deriving DecidableEq

/-- The static `WEAPON_SEVERITY` dict of `app.py` (lines 88-98), as an
association list in source order. -/
def WEAPON_SEVERITY : List (String × SeverityEntry) :=
  [ ("gun", ⟨"SERIOUS-URGENT", "🔴 Red", "High"⟩),
    ("pistol", ⟨"SERIOUS-URGENT", "🔴 Red", "High"⟩),
    ("rifle", ⟨"SERIOUS-URGENT", "🔴 Red", "High"⟩),
    ("knife", ⟨"SERIOUS", "🟡 Yellow", "Medium"⟩),
    ("machete", ⟨"SERIOUS", "🟡 Yellow", "Medium"⟩),
    ("sword", ⟨"SERIOUS", "🟡 Yellow", "Medium"⟩),
    ("stick", ⟨"LOW", "🟢 Green", "Low"⟩),
    ("stone", ⟨"LOW", "🟢 Green", "Low"⟩),
    ("club", ⟨"LOW", "🟢 Green", "Low"⟩) ]

/-- `needle` occurs as a contiguous sublist of `hay`. -/
def is_infix_of (needle : List Char) : List Char → Bool
  | [] => needle.isEmpty
  | c :: rest => needle.isPrefixOf (c :: rest) || is_infix_of needle rest

/-- Python substring containment `needle in hay` on strings. -/
def str_contains (hay needle : String) : Bool :=
  is_infix_of needle.toList hay.toList

/-- Python `str.lower()`, character by character. -/
def str_to_lower (s : String) : String :=
  ⟨s.data.map Char.toLower⟩

/-- One step of whitespace splitting, consuming characters from the right:
the state is (completed words, current word). -/
def split_step (c : Char) (st : List (List Char) × List Char) :
    List (List Char) × List Char :=
  if c = ' ' then (if st.2.isEmpty then st.1 else st.2 :: st.1, [])
  else (st.1, c :: st.2)

/-- Python's no-argument `str.split()`: split on space runs, dropping empty
pieces (the fixed keywords contain no other whitespace). -/
def py_split_words (s : String) : List String :=
  let st := s.toList.foldr split_step ([], [])
  (if st.2.isEmpty then st.1 else st.2 :: st.1).map (fun cs => ⟨cs⟩)

/-- The `weapon_keywords` list of `detect_weapons` (app.py line 125).
Note: the source list is NOT the full key set of `WEAPON_SEVERITY`. -/
def weapon_keywords : List String :=
  ["knife", "gun", "pistol", "rifle", "stick", "baseball bat"]

/-- The match test of app.py line 131:
`weapon in label or any(w in label for w in weapon.split())`,
with `label` already lowercased by the caller. -/
def keyword_matches (weapon label : String) : Bool :=
  str_contains label weapon || (py_split_words weapon).any (fun w => str_contains label w)

/-- The classification loop of `detect_weapons` (app.py lines 128-143): for
each raw result, for each keyword in source order, on a label match and
table membership append one classified detection. -/
def classify_results (results : List RawResult) : List Detection :=
  results.flatMap (fun r =>
    let label := (str_to_lower r.label)
    weapon_keywords.filterMap (fun weapon =>
      if keyword_matches weapon label then
        match WEAPON_SEVERITY.lookup weapon with
        | some e =>
            some { weapon := weapon, confidence := r.score, box := r.box,
                   severity := e.severity, alert_level := e.alert_level,
                   risk := e.risk }
        | none => none
      else none))

/-- `detect_weapons(image, object_detector)` (app.py lines 115-146).  The
detector callable is modelled as `Img → Except String (List RawResult)`;
the `try/except` returns `[]` on an inference exception, and a `None`
detector returns `[]` immediately. -/
def detect_weapons {Img : Type} (image : Img)
    (object_detector : Option (Img → Except String (List RawResult))) :
    List Detection :=
  match object_detector with
  | none => []
  | some f =>
    match f image with
    | .ok results => classify_results results
    | .error _ => []

/-- `analyze_threat_level(detected_weapons, sentiment_analyzer)`
(app.py lines 148-161).  The `sentiment_analyzer` argument is received but
never read, so the embedding is polymorphic in its type. -/
def analyze_threat_level {α : Type} (detected_weapons : List Detection)
    (sentiment_analyzer : α) : String × String × String :=
  if detected_weapons.isEmpty then
    ("🟢 Green", "LOW", "No immediate threat detected")
  else
    let risk_levels := detected_weapons.map (fun weapon => weapon.risk)
    if "High" ∈ risk_levels then
      ("🔴 Red", "SERIOUS-URGENT", "Immediate action required - High-risk weapons detected")
    else if "Medium" ∈ risk_levels then
      ("🟡 Yellow", "SERIOUS", "Caution advised - Medium-risk weapons detected")
    else
      ("🟢 Green", "LOW", "Monitor situation - Low-risk items detected")

/-- `load_models()` (app.py lines 100-113).  The two `pipeline(...)` calls
are modelled as one initialization outcome `init`; on failure the function
surfaces one user-visible error message and returns `(None, None)`.  The
second component of the result collects the `st.error` messages shown. -/
def load_models {D S : Type} (init : Except String (D × S)) :
    (Option D × Option S) × List String :=
  match init with
  | .ok (d, s) => ((some d, some s), [])
  | .error e => ((none, none), ["Error loading models: " ++ e])

/-- The manually entered / simulated location dict (app.py lines 398-417). -/
structure LocationData where
  county : String
  sub_county : String
  ward : String
  location : String
  latitude : ℚ
  longitude : ℚ
deriving DecidableEq

/-- A wall-clock instant as read by `datetime.datetime.now()`, at the
resolution Python exposes (microseconds).  `strftime('%Y%m%d_%H%M%S')`
reads only the fields down to `second`. -/
structure DateTime where
  year : Nat
  month : Nat
  day : Nat
  hour : Nat
  minute : Nat
  second : Nat
  micro : Nat
deriving DecidableEq

/-- Zero-pad a natural to at least two digits (strftime `%m`/`%d`/`%H`/…). -/
def pad2 (n : Nat) : String :=
  if n < 10 then "0" ++ toString n else toString n

/-- Zero-pad a natural to at least four digits (strftime `%Y`). -/
def pad4 (n : Nat) : String :=
  if n < 10 then "000" ++ toString n
  else if n < 100 then "00" ++ toString n
  else if n < 1000 then "0" ++ toString n
  else toString n

/-- `strftime('%Y%m%d_%H%M%S')` (app.py line 422, incident-id suffix). -/
def strftime_id (t : DateTime) : String :=
  pad4 t.year ++ pad2 t.month ++ pad2 t.day ++ "_" ++
    pad2 t.hour ++ pad2 t.minute ++ pad2 t.second

/-- `strftime('%Y-%m-%d %H:%M:%S')` (app.py line 426, incident timestamp). -/
def strftime_ts (t : DateTime) : String :=
  pad4 t.year ++ "-" ++ pad2 t.month ++ "-" ++ pad2 t.day ++ " " ++
    pad2 t.hour ++ ":" ++ pad2 t.minute ++ ":" ++ pad2 t.second

/-- An incident record as built at submission (app.py lines 424-434). -/
structure Incident where
  id : String
  timestamp : String
  detected_weapons : List Detection
  alert_level : String
  severity : String
  risk_assessment : String
  location : LocationData
  status : String
  recommendations : String
deriving DecidableEq

/-- `get_recommendations(severity)` (app.py lines 607-614). -/
def get_recommendations (severity : String) : String :=
  if severity = "SERIOUS-URGENT" then
    "Immediate dispatch of armed response unit. Establish perimeter. Evacuate civilians if necessary. Contact emergency services."
  else if severity = "SERIOUS" then
    "Dispatch patrol unit for investigation. Increase surveillance in the area. Consider community alert."
  else
    "Monitor situation. Routine patrol check recommended. Document for trend analysis."

/-- The fields of `st.session_state.analysis_results` that flow into a
submitted incident (app.py lines 371-377; the stored `image` is only used
for display and is omitted). -/
structure AnalysisResults where
  detected_weapons : List Detection
  alert_level : String
  severity : String
  risk_assessment : String
deriving DecidableEq

/-- The analysis step of the Report-Incident page (app.py lines 343-377):
the triple comes from `analyze_threat_level`, except that when no weapons
were detected lines 366-368 re-assign the fixed no-threat triple before the
results are stored. -/
def mk_analysis_results {α : Type} (detected_weapons : List Detection)
    (sentiment_analyzer : α) : AnalysisResults :=
  let (alert_level, severity, risk_assessment) :=
    analyze_threat_level detected_weapons sentiment_analyzer
  if detected_weapons.isEmpty then
    { detected_weapons := detected_weapons, alert_level := "🟢 Green",
      severity := "LOW", risk_assessment := "No immediate threat detected" }
  else
    { detected_weapons := detected_weapons, alert_level := alert_level,
      severity := severity, risk_assessment := risk_assessment }

/-- The incident dict built on `Submit Incident Report` (app.py lines
420-434).  The two `datetime.datetime.now()` calls of lines 422 and 426
happen in the same handler; they are modelled as one instant `now`. -/
def submit_incident (ar : AnalysisResults) (location_data : LocationData)
    (now : DateTime) : Incident :=
  { id := "INC_" ++ strftime_id now,
    timestamp := strftime_ts now,
    detected_weapons := ar.detected_weapons,
    alert_level := ar.alert_level,
    severity := ar.severity,
    risk_assessment := ar.risk_assessment,
    location := location_data,
    status := "Active",
    recommendations := get_recommendations ar.severity }

/-- The interactions of `main` that can touch `st.session_state.incidents`:
submitting a report (the only write, an append, line 437), and the
read-only Dashboard / Map / History / Export pages. -/
inductive StoreOp where
  | submitReport (detected_weapons : List Detection) (loc : LocationData) (t : DateTime)
  | dashboard
  | incidentMap
  | history (filter_county filter_severity filter_status : String)
  | exportJson
deriving DecidableEq

/-- One render pass of `main` acting on the session incident list.  A
submission appends `submit_incident` of the page's analysis results (which
are always produced by `mk_analysis_results`); every other page leaves the
list unchanged. -/
def store_step (store : List Incident) : StoreOp → List Incident
  | .submitReport dw loc t => store ++ [submit_incident (mk_analysis_results dw ()) loc t]
  | _ => store

/-- A whole session: fold the render passes over the initially empty
`st.session_state.incidents` list (app.py lines 71-72). -/
def run_session (ops : List StoreOp) : List Incident :=
  ops.foldl store_step []

/-- The county filter of the Incident History page (app.py lines 550-553):
`"All"` disables the filter, otherwise keep incidents whose
`location.county` equals the selection. -/
def filter_by_county (incidents : List Incident) (filter_county : String) :
    List Incident :=
  if filter_county = "All" then incidents
  else incidents.filter (fun i => i.location.county == filter_county)

/-- The severity filter (app.py lines 555-556). -/
def filter_by_severity (incidents : List Incident) (filter_severity : String) :
    List Incident :=
  if filter_severity = "All" then incidents
  else incidents.filter (fun i => i.severity == filter_severity)

/-- The status filter (app.py lines 558-559). -/
def filter_by_status (incidents : List Incident) (filter_status : String) :
    List Incident :=
  if filter_status = "All" then incidents
  else incidents.filter (fun i => i.status == filter_status)

/-- The full filter chain of the Incident History page (app.py lines
550-559), applied to a copy of the stored list. -/
def apply_filters (incidents : List Incident)
    (filter_county filter_severity filter_status : String) : List Incident :=
  filter_by_status
    (filter_by_severity (filter_by_county incidents filter_county) filter_severity)
    filter_status

/-- The JSON documents `json.dumps` can produce from the incident list:
numbers are the rationals standing in for Python floats, objects keep
their key insertion order (as Python dicts and `json.dumps` do). -/
inductive Json where
  | null : Json
  | bool (b : Bool) : Json
  | num (q : ℚ) : Json
  | str (s : String) : Json
  | arr (items : List Json) : Json
  | obj (fields : List (String × Json)) : Json

/-- Key lookup in a deserialized JSON object. -/
def Json.getField (fields : List (String × Json)) (key : String) : Option Json :=
  fields.lookup key

/-- Extract a JSON string. -/
def Json.asStr : Json → Option String
  | .str s => some s
  | _ => none

/-- Extract a JSON number. -/
def Json.asNum : Json → Option ℚ
  | .num q => some q
  | _ => none

/-- Serialize a bounding box the way `json.dumps` renders the `box` dict. -/
def encode_box (b : Box) : Json :=
  .obj [("xmin", .num b.xmin), ("ymin", .num b.ymin),
        ("xmax", .num b.xmax), ("ymax", .num b.ymax)]

/-- Serialize one detection dict (key order of app.py lines 134-141). -/
def encode_detection (d : Detection) : Json :=
  .obj [("weapon", .str d.weapon), ("confidence", .num d.confidence),
        ("box", encode_box d.box), ("severity", .str d.severity),
        ("alert_level", .str d.alert_level), ("risk", .str d.risk)]

/-- Serialize the location dict (key order of app.py lines 398-405). -/
def encode_location (l : LocationData) : Json :=
  .obj [("county", .str l.county), ("sub_county", .str l.sub_county),
        ("ward", .str l.ward), ("location", .str l.location),
        ("latitude", .num l.latitude), ("longitude", .num l.longitude)]

/-- Serialize one incident dict (key order of app.py lines 424-434). -/
def encode_incident (i : Incident) : Json :=
  .obj [("id", .str i.id), ("timestamp", .str i.timestamp),
        ("detected_weapons", .arr (i.detected_weapons.map encode_detection)),
        ("alert_level", .str i.alert_level), ("severity", .str i.severity),
        ("risk_assessment", .str i.risk_assessment),
        ("location", encode_location i.location),
        ("status", .str i.status),
        ("recommendations", .str i.recommendations)]

/-- The JSON export of app.py line 596:
`json.dumps(st.session_state.incidents, indent=2)`, at the level of the
JSON document (whitespace/indent does not affect the document). -/
def encode_incidents (incidents : List Incident) : Json :=
  .arr (incidents.map encode_incident)

/-- Deserialize a bounding box by key lookup. -/
def decode_box (j : Json) : Option Box :=
  match j with
  | .obj fields => do
    let xmin ← (Json.getField fields "xmin").bind Json.asNum
    let ymin ← (Json.getField fields "ymin").bind Json.asNum
    let xmax ← (Json.getField fields "xmax").bind Json.asNum
    let ymax ← (Json.getField fields "ymax").bind Json.asNum
    pure ⟨xmin, ymin, xmax, ymax⟩
  | _ => none

/-- Deserialize one detection by key lookup. -/
def decode_detection (j : Json) : Option Detection :=
  match j with
  | .obj fields => do
    let weapon ← (Json.getField fields "weapon").bind Json.asStr
    let confidence ← (Json.getField fields "confidence").bind Json.asNum
    let box ← (Json.getField fields "box").bind decode_box
    let severity ← (Json.getField fields "severity").bind Json.asStr
    let alert_level ← (Json.getField fields "alert_level").bind Json.asStr
    let risk ← (Json.getField fields "risk").bind Json.asStr
    pure ⟨weapon, confidence, box, severity, alert_level, risk⟩
  | _ => none

/-- Deserialize the location dict by key lookup. -/
def decode_location (j : Json) : Option LocationData :=
  match j with
  | .obj fields => do
    let county ← (Json.getField fields "county").bind Json.asStr
    let sub_county ← (Json.getField fields "sub_county").bind Json.asStr
    let ward ← (Json.getField fields "ward").bind Json.asStr
    let location ← (Json.getField fields "location").bind Json.asStr
    let latitude ← (Json.getField fields "latitude").bind Json.asNum
    let longitude ← (Json.getField fields "longitude").bind Json.asNum
    pure ⟨county, sub_county, ward, location, latitude, longitude⟩
  | _ => none

/-- Deserialize a homogeneous JSON list, failing if any element fails. -/
def decode_list {α : Type} (dec : Json → Option α) : List Json → Option (List α)
  | [] => some []
  | j :: js =>
    match dec j with
    | none => none
    | some a => (decode_list dec js).map (fun rest => a :: rest)

/-- Deserialize one incident by key lookup. -/
def decode_incident (j : Json) : Option Incident :=
  match j with
  | .obj fields => do
    let id ← (Json.getField fields "id").bind Json.asStr
    let timestamp ← (Json.getField fields "timestamp").bind Json.asStr
    let dwJson ← Json.getField fields "detected_weapons"
    let detected_weapons ←
      match dwJson with
      | .arr items => decode_list decode_detection items
      | _ => none
    let alert_level ← (Json.getField fields "alert_level").bind Json.asStr
    let severity ← (Json.getField fields "severity").bind Json.asStr
    let risk_assessment ← (Json.getField fields "risk_assessment").bind Json.asStr
    let location ← (Json.getField fields "location").bind decode_location
    let status ← (Json.getField fields "status").bind Json.asStr
    let recommendations ← (Json.getField fields "recommendations").bind Json.asStr
    pure ⟨id, timestamp, detected_weapons, alert_level, severity,
          risk_assessment, location, status, recommendations⟩
  | _ => none

/-- Deserialize the exported document back into an incident list. -/
def decode_incidents (j : Json) : Option (List Incident) :=
  match j with
  | .arr items => decode_list decode_incident items
  | _ => none

/-- Transcribed from the spec's words (§4.2): the keyword set the spec
claims the classifier tests, used only to compare the claim against the
code's `weapon_keywords`. -/
def spec_weapon_keywords : List String :=
  ["gun", "pistol", "rifle", "knife", "machete", "sword", "stick", "stone",
   "club", "baseball bat"]

/-- The detections the classifier actually emits for one raw result: one
per keyword of the code's `weapon_keywords` list that occurs in the
lowercased label and has a `WEAPON_SEVERITY` entry, carrying that entry's
severity/alert/risk and the result's score and box. -/
def amended_detections (r : RawResult) : List Detection :=
  (weapon_keywords.filter (fun w => keyword_matches w (str_to_lower r.label))).filterMap
    (fun w => (WEAPON_SEVERITY.lookup w).map
      (fun e => { weapon := w, confidence := r.score, box := r.box,
                  severity := e.severity, alert_level := e.alert_level,
                  risk := e.risk }))

/-- Precedence of a risk string per the spec's ordering High > Medium > Low. -/
def risk_precedence (risk : String) : Nat :=
  if risk = "High" then 2 else if risk = "Medium" then 1 else 0

/-- The aggregator outcome the spec describes: the fixed no-threat triple on
the empty list, otherwise the outcome of the highest-precedence risk
present among the detections. -/
def spec_threat_outcome (dw : List Detection) : String × String × String :=
  if dw.isEmpty then
    ("🟢 Green", "LOW", "No immediate threat detected")
  else
    match (dw.map (fun d => risk_precedence d.risk)).foldr max 0 with
    | 2 => ("🔴 Red", "SERIOUS-URGENT", "Immediate action required - High-risk weapons detected")
    | 1 => ("🟡 Yellow", "SERIOUS", "Caution advised - Medium-risk weapons detected")
    | _ => ("🟢 Green", "LOW", "Monitor situation - Low-risk items detected")

/-- The county filter the spec describes: keep, in original order, exactly
the incidents whose `location.county` equals the selection. -/
def county_filter_spec (c : String) : List Incident → List Incident
  | [] => []
  | i :: rest =>
    if i.location.county = c then i :: county_filter_spec c rest
    else county_filter_spec c rest

/-- Two instants fall in the same calendar second (all fields at or above
one-second resolution agree; microseconds may differ). -/
def same_second (t1 t2 : DateTime) : Prop :=
  t1.year = t2.year ∧ t1.month = t2.month ∧ t1.day = t2.day ∧
    t1.hour = t2.hour ∧ t1.minute = t2.minute ∧ t1.second = t2.second

/-- A concrete bounding box for witnesses. -/
def demo_box : Box := ⟨10, 20, 110, 220⟩

/-- A concrete High-risk detection, as `classify_results` builds it for a
raw `rifle` result with score 0.91. -/
def high_det : Detection :=
  ⟨"rifle", 91/100, demo_box, "SERIOUS-URGENT", "🔴 Red", "High"⟩

/-- A concrete Low-risk detection (a matched `stick`). -/
def low_det : Detection :=
  ⟨"stick", 1/2, demo_box, "LOW", "🟢 Green", "Low"⟩

/-- A concrete location in Nairobi. -/
def demo_loc : LocationData :=
  ⟨"Nairobi", "Westlands", "Parklands", "Nairobi CBD", -12921/10000, 368219/10000⟩

/-- A concrete location in Mombasa. -/
def demo_loc2 : LocationData :=
  ⟨"Mombasa", "Mvita", "Tononoka", "Old Town", -40547/10000, 396622/10000⟩

/-- A concrete submission instant. -/
def demo_time : DateTime := ⟨2026, 10, 12, 5, 3, 9, 0⟩

/-- The same calendar second as `demo_time`, later in microseconds. -/
def demo_time2 : DateTime := ⟨2026, 10, 12, 5, 3, 9, 999999⟩

/-- The incident produced by submitting an analysis of `[high_det]` from
`demo_loc` at `demo_time`. -/
def demo_incident : Incident :=
  submit_incident (mk_analysis_results [high_det] ()) demo_loc demo_time

/-- The incident produced by submitting an empty analysis from `demo_loc2`
at `demo_time2`. -/
def demo_incident2 : Incident :=
  submit_incident (mk_analysis_results [] ()) demo_loc2 demo_time2

/-! ## Helper lemmas -/

theorem foldr_max_le {l : List Nat} {b : Nat} (h : ∀ x ∈ l, x ≤ b) :
    l.foldr max 0 ≤ b := by
  induction l with
  | nil => exact Nat.zero_le b
  | cons a t ih =>
    simp only [List.foldr_cons]
    exact max_le (h a (List.mem_cons_self a t))
      (ih fun x hx => h x (List.mem_cons_of_mem a hx))

theorem le_foldr_max {l : List Nat} {x : Nat} (hx : x ∈ l) :
    x ≤ l.foldr max 0 := by
  induction l with
  | nil => cases hx
  | cons a t ih =>
    simp only [List.foldr_cons]
    rcases List.mem_cons.mp hx with h | h
    · exact h ▸ le_max_left a (t.foldr max 0)
    · exact le_trans (ih h) (le_max_right a (t.foldr max 0))

theorem mk_analysis_results_fields {α : Type} (dw : List Detection) (sa : α) :
    (mk_analysis_results dw sa).detected_weapons = dw ∧
      ((mk_analysis_results dw sa).alert_level,
        (mk_analysis_results dw sa).severity,
        (mk_analysis_results dw sa).risk_assessment) =
        analyze_threat_level dw sa := by
  cases dw with
  | nil => exact ⟨rfl, rfl⟩
  | cons d rest => exact ⟨rfl, rfl⟩

theorem classify_inner_eq_amended (r : RawResult) :
    (weapon_keywords.filterMap (fun weapon =>
      if keyword_matches weapon (str_to_lower r.label) then
        match WEAPON_SEVERITY.lookup weapon with
        | some e =>
            some { weapon := weapon, confidence := r.score, box := r.box,
                   severity := e.severity, alert_level := e.alert_level,
                   risk := e.risk }
        | none => none
      else none)) = amended_detections r := by
  unfold amended_detections
  rw [List.filterMap_filter]
  apply congrArg (fun f => List.filterMap f weapon_keywords)
  funext w
  by_cases h : keyword_matches w (str_to_lower r.label) = true
  · simp only [h, if_true]
    cases WEAPON_SEVERITY.lookup w <;> rfl
  · simp only [h, if_false, Bool.false_eq_true]

/-! ## Claim theorems -/

/-- C1 counterexample: "machete" is one of the spec's fixed weapon keywords,
the label "Machete" contains it after lowercasing, and `WEAPON_SEVERITY`
has an entry for it, yet `detect_weapons` emits no Detection for a raw
result labelled "Machete" — refuting "each output item whose label text
contains one of the fixed weapon keywords ... causes the classifier to
emit exactly one Detection". -/
theorem C1_counterexample :
    ("machete" ∈ spec_weapon_keywords ∧
      str_contains (str_to_lower "Machete") "machete" = true ∧
      WEAPON_SEVERITY.lookup "machete" = some ⟨"SERIOUS", "🟡 Yellow", "Medium"⟩) ∧
    detect_weapons () (some (fun _ : Unit =>
      Except.ok [{ label := "Machete", score := 9/10, box := ⟨0, 0, 1, 1⟩ }])) = [] := by
  exact ⟨⟨by decide, by decide, by decide⟩, by decide⟩

/-- C1 (amended): for every detector output list, the classifier emits, per
output item, exactly one Detection for each keyword of the code's
`weapon_keywords` list (knife, gun, pistol, rifle, stick, baseball bat)
that occurs in the lowercased label AND has a `WEAPON_SEVERITY` entry
(so "baseball bat" matches are dropped, and machete/sword/stone/club are
never matched), with the table's severity/alert/risk for that keyword and
no confidence threshold. -/
theorem C1_amended_classifier (results : List RawResult) :
    detect_weapons () (some (fun _ : Unit => Except.ok results)) =
      results.flatMap amended_detections := by
  show classify_results results = results.flatMap amended_detections
  unfold classify_results
  induction results with
  | nil => rfl
  | cons r rest ih =>
    simp only [List.flatMap_cons] at *
    rw [ih, classify_inner_eq_amended r]

/-- C2: every Detection list containing at least one High-risk detection
makes the aggregator return the fixed Red/SERIOUS-URGENT triple, whatever
the other detections' risks are. -/
theorem C2_high_risk_forces_red {α : Type} (sa : α) (dw : List Detection)
    (h : ∃ d ∈ dw, d.risk = "High") :
    analyze_threat_level dw sa =
      ("🔴 Red", "SERIOUS-URGENT", "Immediate action required - High-risk weapons detected") := by
  obtain ⟨d, hd, hr⟩ := h
  have hne : dw ≠ [] := List.ne_nil_of_mem hd
  have hmem : "High" ∈ dw.map (fun w => w.risk) :=
    List.mem_map.mpr ⟨d, hd, hr⟩
  unfold analyze_threat_level
  rw [if_neg (by simp [List.isEmpty_iff, hne]), if_pos hmem]

/-- C2 witness: the theorem applied to the concrete list
`[high_det, low_det]`. -/
theorem C2_witness :
    (∃ d ∈ [high_det, low_det], d.risk = "High") ∧
      analyze_threat_level [high_det, low_det] () =
        ("🔴 Red", "SERIOUS-URGENT", "Immediate action required - High-risk weapons detected") :=
  ⟨⟨high_det, List.mem_cons_self high_det [low_det], rfl⟩,
    C2_high_risk_forces_red () [high_det, low_det]
      ⟨high_det, List.mem_cons_self high_det [low_det], rfl⟩⟩

/-- C3: the aggregator is a pure total function; on the empty list it
returns the fixed no-threat triple, and on a non-empty list it returns the
outcome of the highest-precedence risk present (High > Medium > Low), as
captured by `spec_threat_outcome`. -/
theorem C3_aggregator_precedence {α : Type} (sa : α) (dw : List Detection) :
    analyze_threat_level dw sa = spec_threat_outcome dw := by
  cases dw with
  | nil => rfl
  | cons d rest =>
    have hub : ∀ x ∈ (d :: rest).map (fun w => risk_precedence w.risk), x ≤ 2 := by
      intro x hx
      obtain ⟨y, _, hxy⟩ := List.mem_map.mp hx
      subst hxy
      unfold risk_precedence
      split_ifs <;> omega
    by_cases hH : "High" ∈ (d :: rest).map (fun w => w.risk)
    · obtain ⟨y, hy, hyr⟩ := List.mem_map.mp hH
      have h2 : (2 : Nat) ∈ (d :: rest).map (fun w => risk_precedence w.risk) :=
        List.mem_map.mpr ⟨y, hy, by rw [hyr]; rfl⟩
      have hM : ((d :: rest).map (fun w => risk_precedence w.risk)).foldr max 0 = 2 :=
        le_antisymm (foldr_max_le hub) (le_foldr_max h2)
      simp only [analyze_threat_level, spec_threat_outcome, List.isEmpty_cons,
        Bool.false_eq_true, if_false, hH, if_true, hM]
    · by_cases hMed : "Medium" ∈ (d :: rest).map (fun w => w.risk)
      · have hub1 : ∀ x ∈ (d :: rest).map (fun w => risk_precedence w.risk), x ≤ 1 := by
          intro x hx
          obtain ⟨y, hy, hxy⟩ := List.mem_map.mp hx
          subst hxy
          have hyH : y.risk ≠ "High" := by
            intro hc
            exact hH (List.mem_map.mpr ⟨y, hy, hc⟩)
          unfold risk_precedence
          split_ifs with h1 h2
          · exact absurd h1 hyH
          · omega
          · omega
        obtain ⟨y, hy, hyr⟩ := List.mem_map.mp hMed
        have hyH : y.risk ≠ "High" := by
          intro hc
          exact hH (List.mem_map.mpr ⟨y, hy, hc⟩)
        have h1 : (1 : Nat) ∈ (d :: rest).map (fun w => risk_precedence w.risk) :=
          List.mem_map.mpr ⟨y, hy, by unfold risk_precedence; rw [if_neg hyH, if_pos hyr]⟩
        have hM : ((d :: rest).map (fun w => risk_precedence w.risk)).foldr max 0 = 1 :=
          le_antisymm (foldr_max_le hub1) (le_foldr_max h1)
        simp only [analyze_threat_level, spec_threat_outcome, List.isEmpty_cons,
          Bool.false_eq_true, if_false, hH, hMed, if_true, hM]
      · have hub0 : ∀ x ∈ (d :: rest).map (fun w => risk_precedence w.risk), x ≤ 0 := by
          intro x hx
          obtain ⟨y, hy, hxy⟩ := List.mem_map.mp hx
          subst hxy
          have hyH : y.risk ≠ "High" := by
            intro hc
            exact hH (List.mem_map.mpr ⟨y, hy, hc⟩)
          have hyM : y.risk ≠ "Medium" := by
            intro hc
            exact hMed (List.mem_map.mpr ⟨y, hy, hc⟩)
          unfold risk_precedence
          rw [if_neg hyH, if_neg hyM]
        have hM : ((d :: rest).map (fun w => risk_precedence w.risk)).foldr max 0 = 0 :=
          Nat.le_zero.mp (foldr_max_le hub0)
        simp only [analyze_threat_level, spec_threat_outcome, List.isEmpty_cons,
          Bool.false_eq_true, if_false, hH, hMed, hM]

/-- C7: the aggregator never reads the sentiment-analysis input — its
result is the same for any two sentiment-analyzer values of any types
(noninterference). -/
theorem C7_sentiment_noninterference (α β : Type) (sa₁ : α) (sa₂ : β)
    (dw : List Detection) :
    analyze_threat_level dw sa₁ = analyze_threat_level dw sa₂ := rfl

/-- C8: a failing model initialization makes the loader return
`(None, None)` with exactly one surfaced error message and no retry, and
calling the weapon detector with a `None` object-detection model returns
the empty detection list for every image. -/
theorem C8_failure_terminal (D S Img : Type) (e : String) (img : Img) :
    @load_models D S (Except.error e) =
        ((none, none), ["Error loading models: " ++ e]) ∧
      @detect_weapons Img img none = [] :=
  ⟨rfl, rfl⟩

theorem submit_consistent {α β : Type} (dw : List Detection) (sa : α)
    (loc : LocationData) (t : DateTime) (sb : β) :
    analyze_threat_level
        (submit_incident (mk_analysis_results dw sa) loc t).detected_weapons sb =
      ((submit_incident (mk_analysis_results dw sa) loc t).alert_level,
        (submit_incident (mk_analysis_results dw sa) loc t).severity,
        (submit_incident (mk_analysis_results dw sa) loc t).risk_assessment) := by
  obtain ⟨h1, h2⟩ := mk_analysis_results_fields dw sa
  show analyze_threat_level (mk_analysis_results dw sa).detected_weapons sb =
    ((mk_analysis_results dw sa).alert_level, (mk_analysis_results dw sa).severity,
      (mk_analysis_results dw sa).risk_assessment)
  rw [h1, h2]
  rfl

theorem filter_by_county_sublist (l : List Incident) (c : String) :
    List.Sublist (filter_by_county l c) l := by
  unfold filter_by_county
  split
  · exact List.Sublist.refl l
  · exact List.filter_sublist l

theorem filter_by_severity_sublist (l : List Incident) (s : String) :
    List.Sublist (filter_by_severity l s) l := by
  unfold filter_by_severity
  split
  · exact List.Sublist.refl l
  · exact List.filter_sublist l

theorem filter_by_status_sublist (l : List Incident) (s : String) :
    List.Sublist (filter_by_status l s) l := by
  unfold filter_by_status
  split
  · exact List.Sublist.refl l
  · exact List.filter_sublist l

theorem filter_eq_county_spec (c : String) :
    ∀ l : List Incident,
      List.filter (fun i => i.location.county == c) l = county_filter_spec c l := by
  intro l
  induction l with
  | nil => rfl
  | cons i rest ih =>
    by_cases hc : i.location.county = c <;>
      simp [List.filter_cons, county_filter_spec, hc, ih]

theorem decode_box_encode (b : Box) : decode_box (encode_box b) = some b := rfl

theorem decode_detection_encode (d : Detection) :
    decode_detection (encode_detection d) = some d := rfl

theorem decode_location_encode (l : LocationData) :
    decode_location (encode_location l) = some l := rfl

theorem decode_list_encode {α : Type} (dec : Json → Option α) (enc : α → Json)
    (h : ∀ x, dec (enc x) = some x) :
    ∀ l : List α, decode_list dec (l.map enc) = some l := by
  intro l
  induction l with
  | nil => rfl
  | cons x xs ih => simp [List.map_cons, decode_list, h x, ih]

theorem decode_incident_encode (i : Incident) :
    decode_incident (encode_incident i) = some i := by
  have h := decode_list_encode decode_detection encode_detection
    decode_detection_encode i.detected_weapons
  show (decode_list decode_detection (i.detected_weapons.map encode_detection)).bind
      (fun dws => some
        { id := i.id, timestamp := i.timestamp, detected_weapons := dws,
          alert_level := i.alert_level, severity := i.severity,
          risk_assessment := i.risk_assessment, location := i.location,
          status := i.status, recommendations := i.recommendations }) = some i
  rw [h]
  rfl

/-- C4: every incident appended to the store during a session has derived
alert/severity fields equal to the aggregator's result over its own
`detected_weapons` list (and, incidents being values that no session
operation rewrites, this stays true for every incident ever in the store). -/
theorem C4_incident_consistency (ops : List StoreOp) (inc : Incident)
    (h : inc ∈ run_session ops) (β : Type) (sa : β) :
    analyze_threat_level inc.detected_weapons sa =
      (inc.alert_level, inc.severity, inc.risk_assessment) := by
  unfold run_session at h
  suffices haux : ∀ (ops : List StoreOp) (store : List Incident),
      (∀ j ∈ store, analyze_threat_level j.detected_weapons sa =
        (j.alert_level, j.severity, j.risk_assessment)) →
      ∀ j ∈ ops.foldl store_step store,
        analyze_threat_level j.detected_weapons sa =
          (j.alert_level, j.severity, j.risk_assessment) by
    exact haux ops [] (by intro j hj; cases hj) inc h
  intro ops
  induction ops with
  | nil => intro store hstore j hj; exact hstore j hj
  | cons op rest ih =>
    intro store hstore j hj
    simp only [List.foldl_cons] at hj
    refine ih (store_step store op) ?_ j hj
    intro k hk
    cases op with
    | submitReport dw loc t =>
      simp only [store_step] at hk
      rcases List.mem_append.mp hk with hmem | hmem
      · exact hstore k hmem
      · have hk2 : k = submit_incident (mk_analysis_results dw ()) loc t := by
          simpa using hmem
        subst hk2
        exact submit_consistent dw () loc t sa
    | dashboard => exact hstore k hk
    | incidentMap => exact hstore k hk
    | history fc fsev fstat => exact hstore k hk
    | exportJson => exact hstore k hk

/-- C4 witness: the theorem applied to a one-submission session producing
`demo_incident`. -/
theorem C4_witness :
    demo_incident ∈ run_session [StoreOp.submitReport [high_det] demo_loc demo_time] ∧
      analyze_threat_level demo_incident.detected_weapons () =
        (demo_incident.alert_level, demo_incident.severity,
          demo_incident.risk_assessment) := by
  have hmem : demo_incident ∈
      run_session [StoreOp.submitReport [high_det] demo_loc demo_time] :=
    List.mem_singleton.mpr rfl
  exact ⟨hmem,
    C4_incident_consistency [StoreOp.submitReport [high_det] demo_loc demo_time]
      demo_incident hmem Unit ()⟩

/-- C5: for a selected county (the sentinel "All" disables the filter), the
county filter returns exactly the incidents whose `location.county` equals
the selection, in their original relative order: it equals the
order-preserving selection `county_filter_spec`, its members are
characterized by county equality, and it is a sublist of the input. -/
theorem C5_county_filter (incidents : List Incident) (c : String)
    (h : c ≠ "All") :
    filter_by_county incidents c = county_filter_spec c incidents ∧
      (∀ i, i ∈ filter_by_county incidents c ↔
        i ∈ incidents ∧ i.location.county = c) ∧
      List.Sublist (filter_by_county incidents c) incidents := by
  have hfil : filter_by_county incidents c =
      incidents.filter (fun i => i.location.county == c) := by
    unfold filter_by_county
    rw [if_neg h]
  refine ⟨?_, ?_, ?_⟩
  · rw [hfil]
    exact filter_eq_county_spec c incidents
  · intro i
    rw [hfil, List.mem_filter]
    simp [beq_iff_eq]
  · rw [hfil]
    exact List.filter_sublist incidents

/-- C5 witness: the theorem applied to a concrete two-incident list and the
county "Nairobi". -/
theorem C5_witness :
    ("Nairobi" : String) ≠ "All" ∧
      (filter_by_county [demo_incident, demo_incident2] "Nairobi" =
          county_filter_spec "Nairobi" [demo_incident, demo_incident2] ∧
        (∀ i, i ∈ filter_by_county [demo_incident, demo_incident2] "Nairobi" ↔
          i ∈ [demo_incident, demo_incident2] ∧ i.location.county = "Nairobi") ∧
        List.Sublist (filter_by_county [demo_incident, demo_incident2] "Nairobi")
          [demo_incident, demo_incident2]) :=
  ⟨by decide, C5_county_filter [demo_incident, demo_incident2] "Nairobi" (by decide)⟩

/-- C6: deserializing the exported JSON document reproduces exactly the
in-memory incident list at export time (hence the same incident count and
the same field values). -/
theorem C6_export_roundtrip (incidents : List Incident) :
    decode_incidents (encode_incidents incidents) = some incidents := by
  show decode_list decode_incident (incidents.map encode_incident) = some incidents
  exact decode_list_encode decode_incident encode_incident
    decode_incident_encode incidents

/-- C9: the store is append-only — every session operation extends the
incident list by a (possibly empty) suffix, never rewriting or dropping an
existing entry; the history filters leave the stored list unchanged and
produce a sublist of it (a linear-scan selection). -/
theorem C9_append_only_store (store : List Incident) (op : StoreOp)
    (fc fsev fstat : String) :
    (∃ suffix, store_step store op = store ++ suffix) ∧
      store_step store (StoreOp.history fc fsev fstat) = store ∧
      List.Sublist (apply_filters store fc fsev fstat) store := by
  refine ⟨?_, rfl, ?_⟩
  · cases op with
    | submitReport dw loc t =>
      exact ⟨[submit_incident (mk_analysis_results dw ()) loc t], rfl⟩
    | dashboard => exact ⟨[], (List.append_nil store).symm⟩
    | incidentMap => exact ⟨[], (List.append_nil store).symm⟩
    | history a b c => exact ⟨[], (List.append_nil store).symm⟩
    | exportJson => exact ⟨[], (List.append_nil store).symm⟩
  · exact (filter_by_status_sublist _ fstat).trans
      ((filter_by_severity_sublist _ fsev).trans
        (filter_by_county_sublist store fc))

/-- C10: every submitted incident's id is "INC_" followed by the submission
time formatted at one-second resolution, so two submissions in the same
calendar second (microseconds apart) produce identical ids — ids are not
unique. -/
theorem C10_id_second_resolution (ar1 ar2 : AnalysisResults)
    (loc1 loc2 : LocationData) (t1 t2 : DateTime) (h : same_second t1 t2) :
    (submit_incident ar1 loc1 t1).id = "INC_" ++ strftime_id t1 ∧
      (submit_incident ar1 loc1 t1).id = (submit_incident ar2 loc2 t2).id := by
  obtain ⟨hy, hmo, hd, hh, hmi, hs⟩ := h
  refine ⟨rfl, ?_⟩
  show "INC_" ++ strftime_id t1 = "INC_" ++ strftime_id t2
  unfold strftime_id
  rw [hy, hmo, hd, hh, hmi, hs]

/-- C10 witness: the theorem applied to two submissions at `demo_time` and
`demo_time2`, distinct instants within the same calendar second. -/
theorem C10_witness :
    same_second demo_time demo_time2 ∧ demo_time ≠ demo_time2 ∧
      ((submit_incident (mk_analysis_results [high_det] ()) demo_loc demo_time).id =
          "INC_" ++ strftime_id demo_time ∧
        (submit_incident (mk_analysis_results [high_det] ()) demo_loc demo_time).id =
          (submit_incident (mk_analysis_results [] ()) demo_loc2 demo_time2).id) :=
  ⟨⟨rfl, rfl, rfl, rfl, rfl, rfl⟩, by decide,
    C10_id_second_resolution (mk_analysis_results [high_det] ())
      (mk_analysis_results [] ()) demo_loc demo_loc2 demo_time demo_time2
      ⟨rfl, rfl, rfl, rfl, rfl, rfl⟩⟩

end AiSmartDetector
